import Mathlib

/-!
Shallow embedding of the `liquid-energy` core
(`src/liquid_energy/core/event_system.py` and
`src/liquid_energy/core/hummingbot_client.py`).

Two models are used:

* a small heap model of Python reference semantics, needed for the claim
  about `Event.__init__`'s `data.copy()` (a *shallow* dict copy);
* a state-transition model of `HummingbotClient` and the `EventEngine`
  dispatch, with the network abstracted as an explicit outcome parameter
  (the response, a timeout, or a raised send) exactly where the Python
  code suspends on the wire.

Wire values are modelled by a two-level JSON-like type (`JScalar` inside
`JVal`): every value the source constructs or inspects is at most one
level deep, and response `data` values are treated as opaque.
-/

namespace LiquidEnergy

/-- Association-list lookup, modelling Python `d.get(k)` / `k in d` on a
dict represented as a list of key/value pairs. -/
def lookupKey {α : Type} (l : List (String × α)) (k : String) : Option α :=
  (l.find? (fun p => decide (p.1 = k))).map (fun p => p.2)

/-- Python `d[k] = v` on an association list: replace the binding when the
key is present, otherwise append it. -/
def setKey {α : Type} (l : List (String × α)) (k : String) (v : α) :
    List (String × α) :=
  if (lookupKey l k).isSome then
    l.map (fun p => if p.1 = k then (k, v) else p)
  else
    l ++ [(k, v)]

/-! ## Heap model for `Event.__init__` (event_system.py lines 41-58)

Python dict values are either immutable scalars or references to other
heap-allocated dicts.  `data.copy()` allocates a fresh dict holding the
same key/value pairs; values that are references keep pointing at the
same heap cells. -/

/-- A Python value stored in a dict: an immutable scalar or a reference
to a heap-allocated (mutable) dict. -/
inductive PVal : Type
  | int (n : Int)
  | str (s : String)
  | ref (a : Nat)
deriving DecidableEq

/-- A Python dict: top-level bindings from keys to values. -/
abbrev PDict : Type := List (String × PVal)

/-- A heap of allocated dicts with a fresh-address counter. -/
structure Heap : Type where
  next : Nat
  cells : List (Nat × PDict)
deriving DecidableEq

/-- Dereference an address. -/
def Heap.get? (h : Heap) (a : Nat) : Option PDict :=
  (h.cells.find? (fun c => decide (c.1 = a))).map (fun c => c.2)

/-- Overwrite the dict stored at an (allocated) address. -/
def Heap.set (h : Heap) (a : Nat) (d : PDict) : Heap :=
  { h with cells := h.cells.map (fun c => if c.1 = a then (a, d) else c) }

/-- Allocate a new dict at a fresh address. -/
def Heap.alloc (h : Heap) (d : PDict) : Heap × Nat :=
  ({ next := h.next + 1, cells := (h.next, d) :: h.cells }, h.next)

/-- Python `o[k] = v` on the dict at address `a` (a top-level mutation of
that dict). -/
def Heap.storeKey (h : Heap) (a : Nat) (k : String) (v : PVal) : Heap :=
  match h.get? a with
  | some d => h.set a (setKey d k v)
  | none => h

/-- Read the value bound to key `k` of the dict at address `a`. -/
def Heap.readKey (h : Heap) (a : Nat) (k : String) : Option PVal :=
  (h.get? a).bind (fun d => lookupKey d k)

/-- Read through one level of nesting: `d[k1][k2]` where `d[k1]` is a
reference to a nested dict. -/
def Heap.readKey2 (h : Heap) (a : Nat) (k1 k2 : String) : Option PVal :=
  match h.readKey a k1 with
  | some (PVal.ref b) => h.readKey b k2
  | _ => none

/-- `Event.__init__` (event_system.py line 56): `self.data = data.copy()`.
Python's `dict.copy` is a *shallow* copy: a fresh dict is allocated whose
bindings are the same key/value pairs (references included).  Returns the
new heap and the address of the event's payload dict.  The address passed
is assumed allocated (Python would raise otherwise); an unallocated
address copies the empty dict. -/
def eventDataInit (h : Heap) (dataAddr : Nat) : Heap × Nat :=
  h.alloc (((h.get? dataAddr)).getD [])

/-! ## Wire values and the in-process event model -/

/-- An immutable scalar wire value (string, integer or boolean). -/
inductive JScalar : Type
  | s (v : String)
  | i (v : Int)
  | b (v : Bool)
deriving DecidableEq

/-- A wire value: a scalar, an object of scalar fields, or an array of
scalars.  Every value the source itself builds or inspects fits in this
two-level universe; deeper payloads are never examined by the core. -/
inductive JVal : Type
  | scalar (v : JScalar)
  | obj (fields : List (String × JScalar))
  | arr (xs : List JScalar)
deriving DecidableEq

/-- A wire message (a JSON object): top-level keys to values. -/
abbrev JObj : Type := List (String × JVal)

/-- Python `str(v)` on a scalar-like value as used in f-string error
messages; container formatting is abstracted (no theorem inspects it). -/
def JVal.pyStr : JVal → String
  | JVal.scalar (JScalar.s v) => v
  | JVal.scalar (JScalar.i v) => toString v
  | JVal.scalar (JScalar.b v) => cond v "True" "False"
  | JVal.obj _ => ""
  | JVal.arr _ => ""

/-- `response.get("message", default)` rendered into an error string. -/
def respErrMsg (resp : JObj) (default : String) : String :=
  ((lookupKey resp "message").getD (JVal.scalar (JScalar.s default))).pyStr

/-- `EventType` (event_system.py lines 17-27). -/
inductive EventType : Type
  | MARKET_DATA
  | ORDER_UPDATE
  | TRADE_UPDATE
  | STRATEGY_UPDATE
  | ERROR
  | INFO
  | SYSTEM
deriving DecidableEq

/-- An event as published by the client via `EventEngine.put`: type,
payload and origin tag.  The creation timestamp is wall-clock
observability data and is not modelled; payload copying is the identity
here because `JVal` is immutable (mutation is studied in the heap model
above). -/
structure PubEvent : Type where
  type : EventType
  data : JVal
  source : Option String
deriving DecidableEq

/-! ## HummingbotClient state (hummingbot_client.py) -/

/-- `OrderType` (lines 24-33); `str` is the wire token. -/
inductive OrderType : Type
  | LIMIT
  | MARKET
deriving DecidableEq

/-- `str(order_type)` (line 31-33). -/
def OrderType.str : OrderType → String
  | OrderType.LIMIT => "limit"
  | OrderType.MARKET => "market"

/-- `OrderSide` (lines 36-45). -/
inductive OrderSide : Type
  | BUY
  | SELL
deriving DecidableEq

/-- `str(side)` (line 43-45). -/
def OrderSide.str : OrderSide → String
  | OrderSide.BUY => "buy"
  | OrderSide.SELL => "sell"

/-- `ConnectionStatus` (lines 75-82). -/
inductive ConnectionStatus : Type
  | DISCONNECTED
  | CONNECTING
  | CONNECTED
  | ERROR
deriving DecidableEq

/-- The exceptions the client raises: `HummingbotClientException` and
`ValueError` (line 388). -/
inductive ClientError : Type
  | clientException (msg : String)
  | valueError (msg : String)
deriving DecidableEq

/-- Python `str(e)` on a raised exception. -/
def ClientError.message : ClientError → String
  | ClientError.clientException m => m
  | ClientError.valueError m => m

/-- The mutable state of one `HummingbotClient` (lines 136-149) together
with two ghost traces: the messages written to the transport (`sent`) and
the events handed to `EventEngine.put` (`published`). -/
structure ClientState : Type where
  apiKey : String
  connectionStatus : ConnectionStatus
  ws : Bool
  messageId : Nat
  pendingRequests : List JVal
  processorRunning : Bool
  sent : List JObj
  published : List PubEvent
deriving DecidableEq

/-- A freshly constructed client (constructor lines 136-149; the
validated scalar configuration other than the API key is not observed by
any modelled operation). -/
def initialClient (apiKey : String) : ClientState :=
  { apiKey := apiKey
    connectionStatus := ConnectionStatus.DISCONNECTED
    ws := false
    messageId := 0
    pendingRequests := []
    processorRunning := false
    sent := []
    published := [] }

/-- `self.event_engine.put(Event(...))` seen from the client: append to
the published-events trace. -/
def ClientState.put (st : ClientState) (e : PubEvent) : ClientState :=
  { st with published := st.published ++ [e] }

/-- How the suspension inside `_send_request` (lines 251-268) resumes:
the correlated response arrived, `asyncio.wait_for` timed out, or the
transport `send` itself raised. -/
inductive AwaitOutcome : Type
  | response (resp : JObj)
  | timeout
  | sendRaised (msg : String)
deriving DecidableEq

/-- Request-id assignment (lines 239-244): if the request has no `id`,
advance the monotonic counter and embed its stringified value; otherwise
keep the caller's id and leave the counter alone.  Returns the new
counter, the request actually sent, and `request["id"]`. -/
def assignRequestId (messageId : Nat) (request : JObj) :
    Nat × JObj × JVal :=
  match lookupKey request "id" with
  | some idv => (messageId, request, idv)
  | none =>
      let mid := messageId + 1
      let idv := JVal.scalar (JScalar.s (Nat.repr mid))
      (mid, setKey request "id" idv, idv)

/-- `_send_request` (lines 223-272).  The numeric timeout value that the
source interpolates into the timeout message is elided.  The `finally`
block removes the pending entry in every outcome. -/
def sendRequest (st : ClientState) (request : JObj)
    (outcome : AwaitOutcome) : ClientState × Except ClientError JObj :=
  if st.ws = false then
    (st, Except.error (ClientError.clientException "Not connected to Hummingbot"))
  else
    let a := assignRequestId st.messageId request
    let requestId := a.2.2
    let st1 : ClientState :=
      { st with
        messageId := a.1
        pendingRequests :=
          if requestId ∈ st.pendingRequests then st.pendingRequests
          else st.pendingRequests ++ [requestId] }
    let step : ClientState × Except ClientError JObj :=
      match outcome with
      | AwaitOutcome.sendRaised msg =>
          (st1, Except.error (ClientError.clientException ("Request failed: " ++ msg)))
      | AwaitOutcome.response resp =>
          ({ st1 with sent := st1.sent ++ [a.2.1] }, Except.ok resp)
      | AwaitOutcome.timeout =>
          ({ st1 with sent := st1.sent ++ [a.2.1] },
            Except.error (ClientError.clientException "Request timed out"))
    ({ step.1 with
        pendingRequests := step.1.pendingRequests.filter (fun x => decide (x ≠ requestId)) },
      step.2)

/-- `_cleanup` (lines 212-221): close and drop the transport.  Note that
it touches neither `connection_status` nor the pending-request table. -/
def cleanup (st : ClientState) : ClientState :=
  if st.ws then { st with ws := false } else st

/-- How `connect`'s interaction with the environment resolves: the
transport open (`websockets.connect`, line 167) raised, or it succeeded
and the authentication exchange had the given outcome. -/
inductive ConnectAttempt : Type
  | openFailed (msg : String)
  | opened (authOutcome : AwaitOutcome)
deriving DecidableEq

/-- `connect` (lines 151-192).  Any exception inside the `try` block is
caught at line 187: the status is set to `ERROR`, `_cleanup` runs, and a
`HummingbotClientException` reporting the cause is raised. -/
def connect (st : ClientState) (att : ConnectAttempt) :
    ClientState × Except ClientError Unit :=
  if st.connectionStatus = ConnectionStatus.CONNECTED then
    (st, Except.ok ())
  else
    let st1 : ClientState := { st with connectionStatus := ConnectionStatus.CONNECTING }
    match att with
    | ConnectAttempt.openFailed msg =>
        let st2 : ClientState := { st1 with connectionStatus := ConnectionStatus.ERROR }
        (cleanup st2,
          Except.error (ClientError.clientException ("Failed to connect to Hummingbot: " ++ msg)))
    | ConnectAttempt.opened authOutcome =>
        let st2 : ClientState := { st1 with ws := true }
        let pr := sendRequest st2
          [("type", JVal.scalar (JScalar.s "authenticate")),
           ("api_key", JVal.scalar (JScalar.s st.apiKey))] authOutcome
        match pr.2 with
        | Except.error e =>
            let st3 : ClientState := { pr.1 with connectionStatus := ConnectionStatus.ERROR }
            (cleanup st3,
              Except.error (ClientError.clientException
                ("Failed to connect to Hummingbot: " ++ e.message)))
        | Except.ok authResponse =>
            if lookupKey authResponse "status" ≠ some (JVal.scalar (JScalar.s "success")) then
              let st3 : ClientState := { pr.1 with connectionStatus := ConnectionStatus.ERROR }
              (cleanup st3,
                Except.error (ClientError.clientException
                  ("Failed to connect to Hummingbot: Hummingbot authentication failed: "
                    ++ respErrMsg authResponse "Authentication failed")))
            else
              ({ pr.1 with
                  connectionStatus := ConnectionStatus.CONNECTED
                  processorRunning := true },
                Except.ok ())

/-- `_handle_event` (lines 313-359): map an unsolicited message's `type`
to an in-process event kind and forward its `data` (default `{}`) via
`EventEngine.put`; an unknown `type` is logged and nothing is
forwarded. -/
def handleEvent (st : ClientState) (event : JObj) : ClientState :=
  let eventType := lookupKey event "type"
  let data := (lookupKey event "data").getD (JVal.obj [])
  if eventType = some (JVal.scalar (JScalar.s "order_update")) then
    st.put { type := EventType.ORDER_UPDATE, data := data, source := some "hummingbot" }
  else if eventType = some (JVal.scalar (JScalar.s "trade")) then
    st.put { type := EventType.TRADE_UPDATE, data := data, source := some "hummingbot" }
  else if eventType = some (JVal.scalar (JScalar.s "order_book_update"))
      ∨ eventType = some (JVal.scalar (JScalar.s "ticker_update")) then
    st.put { type := EventType.MARKET_DATA, data := data, source := some "hummingbot" }
  else if eventType = some (JVal.scalar (JScalar.s "error")) then
    st.put { type := EventType.ERROR, data := data, source := some "hummingbot" }
  else if eventType = some (JVal.scalar (JScalar.s "info")) then
    st.put { type := EventType.INFO, data := data, source := some "hummingbot" }
  else
    st

/-- What one receive-loop iteration did with an inbound message. -/
inductive ReceiveAction : Type
  | resolvedPending (id : JVal)
  | handled
deriving DecidableEq

/-- The classification step of `_process_events` (lines 289-297): a
message whose `id` matches a pending request resolves that request's
future; anything else goes to `_handle_event`. -/
def processMessage (st : ClientState) (message : JObj) :
    ClientState × ReceiveAction :=
  match lookupKey message "id" with
  | some idv =>
      if idv ∈ st.pendingRequests then
        (st, ReceiveAction.resolvedPending idv)
      else
        (handleEvent st message, ReceiveAction.handled)
  | none => (handleEvent st message, ReceiveAction.handled)

/-! ## Domain operations (lines 361-781)

Each is a thin wrapper over `sendRequest`: build the typed request,
await the correlated response, raise when `response.get("status")` is
not `"success"`, and return `response.get("data", default)`.  The two
order mutations additionally publish events.  Numeric arguments that the
source merely passes through `str()` (`amount`, `price`) are taken
already stringified. -/

/-- The request dict built by `create_order` (lines 390-402): base fields
plus `price`, the latter added only for limit orders with a price. -/
def createOrderRequest (exchange market : String) (side : OrderSide)
    (orderType : OrderType) (amount : String) (price : Option String) : JObj :=
  let request : JObj :=
    [("type", JVal.scalar (JScalar.s "create_order")),
     ("exchange", JVal.scalar (JScalar.s exchange)),
     ("market", JVal.scalar (JScalar.s market)),
     ("side", JVal.scalar (JScalar.s side.str)),
     ("order_type", JVal.scalar (JScalar.s orderType.str)),
     ("amount", JVal.scalar (JScalar.s amount))]
  if orderType = OrderType.LIMIT then
    match price with
    | some p => setKey request "price" (JVal.scalar (JScalar.s p))
    | none => request
  else request

/-- `create_order` (lines 361-436). -/
def createOrder (st : ClientState) (exchange market : String)
    (side : OrderSide) (orderType : OrderType) (amount : String)
    (price : Option String) (outcome : AwaitOutcome) :
    ClientState × Except ClientError JVal :=
  if orderType = OrderType.LIMIT ∧ price = none then
    (st, Except.error (ClientError.valueError "Price is required for limit orders"))
  else
    let request : JObj := createOrderRequest exchange market side orderType amount price
    let errEvent : PubEvent :=
      { type := EventType.ERROR
        data := JVal.obj
          [("message", JScalar.s ("Failed to create " ++ orderType.str ++ " " ++ side.str
              ++ " order for " ++ market ++ " on " ++ exchange)),
           ("exchange", JScalar.s exchange),
           ("market", JScalar.s market)]
        source := some "hummingbot_client" }
    let pr := sendRequest st request outcome
    match pr.2 with
    | Except.error e => (pr.1.put errEvent, Except.error e)
    | Except.ok response =>
        if lookupKey response "status" ≠ some (JVal.scalar (JScalar.s "success")) then
          (pr.1.put errEvent,
            Except.error (ClientError.clientException
              ("Failed to create order: " ++ respErrMsg response "Unknown error")))
        else
          let orderData := (lookupKey response "data").getD (JVal.obj [])
          (pr.1.put
            { type := EventType.ORDER_UPDATE, data := orderData, source := some "hummingbot" },
            Except.ok orderData)

/-- `cancel_order` (lines 438-504). -/
def cancelOrder (st : ClientState) (exchange market orderId : String)
    (outcome : AwaitOutcome) : ClientState × Except ClientError JVal :=
  let request : JObj :=
    [("type", JVal.scalar (JScalar.s "cancel_order")),
     ("exchange", JVal.scalar (JScalar.s exchange)),
     ("market", JVal.scalar (JScalar.s market)),
     ("order_id", JVal.scalar (JScalar.s orderId))]
  let errEvent : PubEvent :=
    { type := EventType.ERROR
      data := JVal.obj
        [("message", JScalar.s ("Failed to cancel order " ++ orderId
            ++ " for " ++ market ++ " on " ++ exchange)),
         ("exchange", JScalar.s exchange),
         ("market", JScalar.s market),
         ("order_id", JScalar.s orderId)]
      source := some "hummingbot_client" }
  let pr := sendRequest st request outcome
  match pr.2 with
  | Except.error e => (pr.1.put errEvent, Except.error e)
  | Except.ok response =>
      if lookupKey response "status" ≠ some (JVal.scalar (JScalar.s "success")) then
        (pr.1.put errEvent,
          Except.error (ClientError.clientException
            ("Failed to cancel order: " ++ respErrMsg response "Unknown error")))
      else
        let cancelData := (lookupKey response "data").getD (JVal.obj [])
        (pr.1.put
          { type := EventType.ORDER_UPDATE
            data := JVal.obj
              [("order_id", JScalar.s orderId),
               ("status", JScalar.s "cancelled"),
               ("exchange", JScalar.s exchange),
               ("market", JScalar.s market)]
            source := some "hummingbot" },
          Except.ok cancelData)

/-- Shared response handling of the read-only operations: raise unless
`response.get("status") == "success"`, otherwise return
`response.get("data", default)` (lines 536-540 and analogues). -/
def checkedData (errHead : String) (default : JVal)
    (pr : ClientState × Except ClientError JObj) :
    ClientState × Except ClientError JVal :=
  match pr.2 with
  | Except.error e => (pr.1, Except.error e)
  | Except.ok response =>
      if lookupKey response "status" ≠ some (JVal.scalar (JScalar.s "success")) then
        (pr.1,
          Except.error (ClientError.clientException
            (errHead ++ respErrMsg response "Unknown error")))
      else
        (pr.1, Except.ok ((lookupKey response "data").getD default))

/-- `get_order_status` (lines 506-540). -/
def getOrderStatus (st : ClientState) (exchange market orderId : String)
    (outcome : AwaitOutcome) : ClientState × Except ClientError JVal :=
  checkedData "Failed to get order status: " (JVal.obj [])
    (sendRequest st
      [("type", JVal.scalar (JScalar.s "get_order")),
       ("exchange", JVal.scalar (JScalar.s exchange)),
       ("market", JVal.scalar (JScalar.s market)),
       ("order_id", JVal.scalar (JScalar.s orderId))] outcome)

/-- `get_order_book` (lines 542-576). -/
def getOrderBook (st : ClientState) (exchange market : String) (depth : Int)
    (outcome : AwaitOutcome) : ClientState × Except ClientError JVal :=
  checkedData "Failed to get order book: " (JVal.obj [])
    (sendRequest st
      [("type", JVal.scalar (JScalar.s "get_order_book")),
       ("exchange", JVal.scalar (JScalar.s exchange)),
       ("market", JVal.scalar (JScalar.s market)),
       ("depth", JVal.scalar (JScalar.i depth))] outcome)

/-- `get_ticker` (lines 578-609). -/
def getTicker (st : ClientState) (exchange market : String)
    (outcome : AwaitOutcome) : ClientState × Except ClientError JVal :=
  checkedData "Failed to get ticker: " (JVal.obj [])
    (sendRequest st
      [("type", JVal.scalar (JScalar.s "get_ticker")),
       ("exchange", JVal.scalar (JScalar.s exchange)),
       ("market", JVal.scalar (JScalar.s market))] outcome)

/-- `get_balances` (lines 683-711). -/
def getBalances (st : ClientState) (exchange : String)
    (outcome : AwaitOutcome) : ClientState × Except ClientError JVal :=
  checkedData "Failed to get balances: " (JVal.obj [])
    (sendRequest st
      [("type", JVal.scalar (JScalar.s "get_balances")),
       ("exchange", JVal.scalar (JScalar.s exchange))] outcome)

/-- `get_open_orders` (lines 713-744). -/
def getOpenOrders (st : ClientState) (exchange market : String)
    (outcome : AwaitOutcome) : ClientState × Except ClientError JVal :=
  checkedData "Failed to get open orders: " (JVal.arr [])
    (sendRequest st
      [("type", JVal.scalar (JScalar.s "get_open_orders")),
       ("exchange", JVal.scalar (JScalar.s exchange)),
       ("market", JVal.scalar (JScalar.s market))] outcome)

/-- `get_order_history` (lines 746-780). -/
def getOrderHistory (st : ClientState) (exchange market : String) (limit : Int)
    (outcome : AwaitOutcome) : ClientState × Except ClientError JVal :=
  checkedData "Failed to get order history: " (JVal.arr [])
    (sendRequest st
      [("type", JVal.scalar (JScalar.s "get_order_history")),
       ("exchange", JVal.scalar (JScalar.s exchange)),
       ("market", JVal.scalar (JScalar.s market)),
       ("limit", JVal.scalar (JScalar.i limit))] outcome)

/-! ## EventEngine dispatch (event_system.py lines 89-252) -/

/-- An event as seen by the engine (kind plus payload object; timestamp
and origin are observability-only and excluded from equality by the
source's `__eq__`). -/
structure EngineEvent : Type where
  type : EventType
  data : List (String × JScalar)

/-- `EventListener` (lines 89-125): a name, the accepted kinds, and the
handler, which may raise (modelled as `Except`). -/
structure EventListener : Type where
  name : String
  eventTypes : List EventType
  handle : EngineEvent → Except String Unit

/-- `can_handle_event_type` (lines 105-115). -/
def canHandleEventType (l : EventListener) (eventType : EventType) : Bool :=
  l.eventTypes.contains eventType

/-- The `try`/`except` around one handler call inside `_distribute_event`
(lines 247-251): a raising handler is caught and logged (`some` carries
the logged message), never propagated. -/
def tryHandle (l : EventListener) (e : EngineEvent) : Option String :=
  match l.handle e with
  | Except.ok _ => none
  | Except.error msg => some msg

/-- `_distribute_event` (lines 235-251): snapshot the listeners, and for
each one accepting the event's kind invoke its handler under the
per-listener `try`/`except`.  The result is the invocation trace:
one entry per invoked listener, with the caught error if it raised. -/
def distributeEvent (listeners : List EventListener) (e : EngineEvent) :
    List (String × Option String) :=
  listeners.filterMap (fun l =>
    if canHandleEventType l e.type then some (l.name, tryHandle l e) else none)

/-- The dispatch loop `_process_events` (lines 212-233) over an
initial segment of the queue: every dequeued event is distributed; a raising handler was
already caught inside `_distribute_event`, so the loop always reaches
the next event. -/
def engineDispatchAll (listeners : List EventListener)
    (queue : List EngineEvent) : List (List (String × Option String)) :=
  queue.map (distributeEvent listeners)

/-- The id-assignment trace of a sequence of `_send_request` calls made
through one client: fold `assignRequestId` over the requests, collecting
the id each request went out with.  Returns the final counter and the
ids. -/
def assignSeq (messageId : Nat) : List JObj → Nat × List JVal
  | [] => (messageId, [])
  | r :: rs =>
      let a := assignRequestId messageId r
      let t := assignSeq a.1 rs
      (t.1, a.2.2 :: t.2)

/-! ## Concrete probe values used by witness theorems -/

/-- A connected client with no pending requests and empty traces. -/
def probeClient : ClientState :=
  { apiKey := "test_api_key"
    connectionStatus := ConnectionStatus.CONNECTED
    ws := true
    messageId := 0
    pendingRequests := []
    processorRunning := true
    sent := []
    published := [] }

/-- A listener whose handler always raises. -/
def throwingListener : EventListener :=
  { name := "listener1"
    eventTypes := [EventType.ERROR, EventType.INFO]
    handle := fun _ => Except.error "handler failure" }

/-- A listener whose handler always succeeds. -/
def normalListener : EventListener :=
  { name := "listener2"
    eventTypes := [EventType.INFO]
    handle := fun _ => Except.ok () }

/-- A concrete event accepted by both probe listeners. -/
def probeEvent : EngineEvent :=
  { type := EventType.INFO, data := [("k", JScalar.s "v")] }

/-! ## Helper lemmas -/

theorem not_mem_filter_ne {α : Type} [DecidableEq α] (l : List α) (a : α) :
    a ∉ l.filter (fun x => decide (x ≠ a)) := by
  intro h
  have := List.of_mem_filter h
  simp at this

theorem lookupKey_nil {α : Type} (k : String) :
    lookupKey ([] : List (String × α)) k = none := rfl

theorem lookupKey_cons {α : Type} (p : String × α) (l : List (String × α)) (k : String) :
    lookupKey (p :: l) k = if p.1 = k then some p.2 else lookupKey l k := by
  by_cases h : p.1 = k <;> simp [lookupKey, List.find?, h]

theorem lookupKey_mapSet {α : Type} (l : List (String × α)) (k : String) (v : α) :
    lookupKey (l.map (fun p => if p.1 = k then (k, v) else p)) k
      = (lookupKey l k).map (fun _ => v) := by
  induction l with
  | nil => rfl
  | cons p t ih =>
      by_cases h : p.1 = k
      · simp [lookupKey, List.find?, h]
      · simp only [List.map, if_neg h]
        rw [lookupKey_cons, lookupKey_cons, if_neg h, if_neg h, ih]

theorem lookupKey_append_right {α : Type} (l1 l2 : List (String × α)) (k : String)
    (h : lookupKey l1 k = none) :
    lookupKey (l1 ++ l2) k = lookupKey l2 k := by
  induction l1 with
  | nil => rfl
  | cons p t ih =>
      rw [lookupKey_cons] at h
      by_cases hp : p.1 = k
      · simp [hp] at h
      · rw [if_neg hp] at h
        rw [List.cons_append, lookupKey_cons, if_neg hp, ih h]

theorem lookupKey_setKey_self {α : Type} (l : List (String × α)) (k : String) (v : α) :
    lookupKey (setKey l k v) k = some v := by
  by_cases h : (lookupKey l k).isSome
  · obtain ⟨w, hw⟩ := Option.isSome_iff_exists.mp h
    simp [setKey, h, lookupKey_mapSet, hw]
  · have hn : lookupKey l k = none := Option.not_isSome_iff_eq_none.mp h
    rw [setKey, if_neg h, lookupKey_append_right l _ k hn, lookupKey_cons]
    simp

theorem lookupKey_mapSet_ne {α : Type} (l : List (String × α)) (k k2 : String) (v : α)
    (hk : k ≠ k2) :
    lookupKey (l.map (fun p => if p.1 = k then (k, v) else p)) k2 = lookupKey l k2 := by
  induction l with
  | nil => rfl
  | cons p t ih =>
      by_cases hp : p.1 = k
      · simp only [List.map_cons, if_pos hp]
        rw [lookupKey_cons, lookupKey_cons, ih]
        simp only [if_neg hk, if_neg (hp ▸ hk)]
      · simp only [List.map_cons, if_neg hp]
        rw [lookupKey_cons, lookupKey_cons, ih]

theorem lookupKey_append_single_ne {α : Type} (l : List (String × α)) (k k2 : String) (v : α)
    (hk : k ≠ k2) :
    lookupKey (l ++ [(k, v)]) k2 = lookupKey l k2 := by
  induction l with
  | nil => rw [List.nil_append, lookupKey_cons, lookupKey_nil]; simp [if_neg hk]
  | cons p t ih =>
      rw [List.cons_append, lookupKey_cons, lookupKey_cons, ih]

theorem lookupKey_setKey_ne {α : Type} (l : List (String × α)) (k k2 : String) (v : α)
    (hk : k ≠ k2) :
    lookupKey (setKey l k v) k2 = lookupKey l k2 := by
  rw [setKey]
  by_cases h : (lookupKey l k).isSome
  · rw [if_pos h, lookupKey_mapSet_ne l k k2 v hk]
  · rw [if_neg h, lookupKey_append_single_ne l k k2 v hk]

theorem Heap.get?_set_ne (h : Heap) (a b : Nat) (d : PDict) (hab : a ≠ b) :
    (h.set a d).get? b = h.get? b := by
  show ((h.cells.map (fun c => if c.1 = a then (a, d) else c)).find?
      (fun c => decide (c.1 = b))).map (fun c => c.2)
    = (h.cells.find? (fun c => decide (c.1 = b))).map (fun c => c.2)
  induction h.cells with
  | nil => rfl
  | cons c t ih =>
      by_cases hc : c.1 = a
      · simp only [List.map_cons, if_pos hc, List.find?]
        have : (decide (a = b)) = false := by simp [hab]
        rw [this]
        have : (decide (c.1 = b)) = false := by simp [hc, hab]
        rw [this]
        exact ih
      · simp only [List.map_cons, if_neg hc, List.find?]
        by_cases hb : c.1 = b
        · simp [hb]
        · simp only [decide_eq_false hb, ih]

theorem Heap.get?_storeKey_ne (h : Heap) (a b : Nat) (k : String) (v : PVal)
    (hab : a ≠ b) :
    (h.storeKey a k v).get? b = h.get? b := by
  rw [Heap.storeKey]
  cases h.get? a with
  | none => rfl
  | some d => exact Heap.get?_set_ne h a b (setKey d k v) hab

theorem Heap.get?_alloc_self (h : Heap) (d : PDict) :
    (h.alloc d).1.get? (h.alloc d).2 = some d := by
  simp [Heap.alloc, Heap.get?, List.find?]


/-! ## Claim theorems -/

/-- Claim C2, counterexample: `Event.__init__` copies the payload only
shallowly (`data.copy()`, event_system.py line 56).  For the concrete
heap `d = {"k": inner}`, `inner = {"x": 1}`, constructing an event from
`d` and then mutating the nested dict (`inner["x"] = 2`) changes what is
observed through the event's payload, so a later mutation of a value
nested inside `d` does not leave the payload unchanged. -/
theorem event_payload_nested_mutation_visible :
    let h0 : Heap :=
      { next := 2, cells := [(0, [("x", PVal.int 1)]), (1, [("k", PVal.ref 0)])] }
    let r := eventDataInit h0 1
    let mutated := r.1.storeKey 0 "x" (PVal.int 2)
    r.1.readKey2 r.2 "k" "x" = some (PVal.int 1)
    ∧ mutated.readKey2 r.2 "k" "x" = some (PVal.int 2)
    ∧ mutated.readKey2 r.2 "k" "x" ≠ r.1.readKey2 r.2 "k" "x" := by
  decide

/-- Claim C2, amended: the payload is shallow-copied at construction.
The copy lives at a fresh address, so any later top-level mutation of the
producer's dict `d` (rebinding or adding a key of `d` itself) leaves the
event's payload mapping unchanged; only mutation of values nested inside
`d` can remain visible (see the counterexample above). -/
theorem event_payload_top_level_isolation (h : Heap) (dataAddr : Nat) (d : PDict)
    (hd : h.get? dataAddr = some d) (hwf : dataAddr < h.next) :
    ((eventDataInit h dataAddr).1.get? (eventDataInit h dataAddr).2 = some d)
    ∧ ∀ (k : String) (v : PVal),
        (((eventDataInit h dataAddr).1.storeKey dataAddr k v).get?
          (eventDataInit h dataAddr).2 = some d) := by
  have hne : dataAddr ≠ (eventDataInit h dataAddr).2 := by
    simp only [eventDataInit, Heap.alloc]
    omega
  constructor
  · show (h.alloc ((h.get? dataAddr).getD [])).1.get?
      (h.alloc ((h.get? dataAddr).getD [])).2 = some d
    rw [Heap.get?_alloc_self, hd]
    rfl
  · intro k v
    rw [Heap.get?_storeKey_ne _ _ _ _ _ hne]
    show (h.alloc ((h.get? dataAddr).getD [])).1.get?
      (h.alloc ((h.get? dataAddr).getD [])).2 = some d
    rw [Heap.get?_alloc_self, hd]
    rfl

/-- Claim C2, amended, witness at a concrete heap. -/
theorem event_payload_top_level_isolation_witness :
    let h0 : Heap :=
      { next := 2, cells := [(0, [("x", PVal.int 1)]), (1, [("k", PVal.ref 0)])] }
    ((eventDataInit h0 1).1.get? (eventDataInit h0 1).2 = some [("k", PVal.ref 0)])
    ∧ (((eventDataInit h0 1).1.storeKey 1 "k" (PVal.int 7)).get?
        (eventDataInit h0 1).2 = some [("k", PVal.ref 0)]) := by
  refine ⟨?_, ?_⟩
  · exact (event_payload_top_level_isolation _ 1 [("k", PVal.ref 0)] (by decide) (by decide)).1
  · exact (event_payload_top_level_isolation _ 1 [("k", PVal.ref 0)] (by decide) (by decide)).2 "k" (PVal.int 7)

/-- Claim C1: the code contradicts it.  When the authentication exchange
of `connect()` fails (here: the auth response's status is `"error"`),
the `except` branch at hummingbot_client.py line 188 sets
`connection_status = ConnectionStatus.ERROR` and `_cleanup` (lines
212-221) never resets it, so the client is left in `ERROR`, not
`DISCONNECTED` — the exception itself is raised as the claim says.  (The
repository's own tests `test_connect_failure_auth` and
`test_connect_failure_connection` assert `DISCONNECTED` here.) -/
theorem connect_auth_failure_leaves_error_status :
    ((connect (initialClient "test_api_key")
      (ConnectAttempt.opened (AwaitOutcome.response
        [("status", JVal.scalar (JScalar.s "error")),
         ("message", JVal.scalar (JScalar.s "Authentication failed"))]))).1.connectionStatus
      = ConnectionStatus.ERROR)
    ∧ ((connect (initialClient "test_api_key")
      (ConnectAttempt.opened (AwaitOutcome.response
        [("status", JVal.scalar (JScalar.s "error")),
         ("message", JVal.scalar (JScalar.s "Authentication failed"))]))).1.connectionStatus
      ≠ ConnectionStatus.DISCONNECTED)
    ∧ (connect (initialClient "test_api_key")
      (ConnectAttempt.opened (AwaitOutcome.response
        [("status", JVal.scalar (JScalar.s "error")),
         ("message", JVal.scalar (JScalar.s "Authentication failed"))]))).2
      = Except.error (ClientError.clientException
        "Failed to connect to Hummingbot: Hummingbot authentication failed: Authentication failed") := by
  exact ⟨rfl, by decide, rfl⟩

/-- Claim C4: fault isolation between listeners.  For any snapshot of
registered listeners and any event, even when some listener's handler
raises (is caught by `_distribute_event`'s per-listener `try`/`except`,
event_system.py lines 247-251), every listener whose accepted-kind set
contains the event's kind still has its handler invoked — its invocation
appears in the dispatch trace — and the dispatch loop goes on to the
next queued event. -/
theorem distribute_isolates_raising_listener
    (listeners : List EventListener) (e : EngineEvent)
    (bad : EventListener) (msg : String)
    (hbad : bad ∈ listeners) (hraise : tryHandle bad e = some msg) :
    (∀ l ∈ listeners, canHandleEventType l e.type = true →
      (l.name, tryHandle l e) ∈ distributeEvent listeners e)
    ∧ ∀ (rest : List EngineEvent),
        engineDispatchAll listeners (e :: rest)
          = distributeEvent listeners e :: engineDispatchAll listeners rest := by
  constructor
  · intro l hl hcan
    exact List.mem_filterMap.mpr ⟨l, hl, by simp [hcan]⟩
  · intro rest
    rfl

/-- Claim C4, witness: two listeners accepting `INFO` events, the first
raising, the second normal — the second's invocation is still in the
trace, and dispatch proceeds past the event. -/
theorem distribute_isolates_raising_listener_witness :
    ((normalListener.name, tryHandle normalListener probeEvent)
      ∈ distributeEvent [throwingListener, normalListener] probeEvent)
    ∧ engineDispatchAll [throwingListener, normalListener] [probeEvent]
        = distributeEvent [throwingListener, normalListener] probeEvent
          :: engineDispatchAll [throwingListener, normalListener] [] := by
  refine ⟨?_, ?_⟩
  · exact (distribute_isolates_raising_listener [throwingListener, normalListener]
      probeEvent throwingListener "handler failure"
      (List.mem_cons_self _ _) rfl).1 normalListener
      (List.mem_cons_of_mem _ (List.mem_cons_self _ _)) rfl
  · exact (distribute_isolates_raising_listener [throwingListener, normalListener]
      probeEvent throwingListener "handler failure"
      (List.mem_cons_self _ _) rfl).2 []

/-- Claim C5: `create_order` with `order_type=limit` and `price=None`
raises `ValueError` at hummingbot_client.py line 388, before any request
is built or sent: the transport trace, the pending-request table and the
published-event trace are all untouched. -/
theorem createOrder_limit_without_price_fails_fast
    (st : ClientState) (exchange market amount : String) (side : OrderSide)
    (outcome : AwaitOutcome) :
    ((createOrder st exchange market side OrderType.LIMIT amount none outcome).1.sent
      = st.sent)
    ∧ ((createOrder st exchange market side OrderType.LIMIT amount none outcome).1.pendingRequests
      = st.pendingRequests)
    ∧ ((createOrder st exchange market side OrderType.LIMIT amount none outcome).1.published
      = st.published)
    ∧ (createOrder st exchange market side OrderType.LIMIT amount none outcome).2
      = Except.error (ClientError.valueError "Price is required for limit orders") := by
  simp [createOrder]

/-- Full characterisation of `_send_request` when the correlated response
arrives: the id is assigned, the request goes out on the transport, the
response is returned, and the `finally` block removes the pending
entry. -/
theorem sendRequest_response_eq (st : ClientState) (hws : st.ws = true)
    (request resp : JObj) :
    sendRequest st request (AwaitOutcome.response resp) =
      ({ st with
          messageId := (assignRequestId st.messageId request).1
          pendingRequests :=
            ((if (assignRequestId st.messageId request).2.2 ∈ st.pendingRequests
              then st.pendingRequests
              else st.pendingRequests ++ [(assignRequestId st.messageId request).2.2]).filter
              (fun x => decide (x ≠ (assignRequestId st.messageId request).2.2)))
          sent := st.sent ++ [(assignRequestId st.messageId request).2.1] },
        Except.ok resp) := by
  simp [sendRequest, hws]

/-- Claim C6: a `cancel_order` whose correlated response has status
`"success"` publishes an OrderUpdate event whose payload carries
`status = "cancelled"` and the request's `order_id` (hummingbot_client.py
lines 476-485), and returns the response's `data`. -/
theorem cancelOrder_success_publishes_cancelled
    (st : ClientState) (exchange market orderId : String) (resp : JObj)
    (hws : st.ws = true)
    (hstatus : lookupKey resp "status" = some (JVal.scalar (JScalar.s "success"))) :
    ((cancelOrder st exchange market orderId (AwaitOutcome.response resp)).1.published
      = st.published ++
        [{ type := EventType.ORDER_UPDATE
           data := JVal.obj
             [("order_id", JScalar.s orderId),
              ("status", JScalar.s "cancelled"),
              ("exchange", JScalar.s exchange),
              ("market", JScalar.s market)]
           source := some "hummingbot" }])
    ∧ (cancelOrder st exchange market orderId (AwaitOutcome.response resp)).2
        = Except.ok ((lookupKey resp "data").getD (JVal.obj [])) := by
  rw [cancelOrder, sendRequest_response_eq st hws _ resp]
  simp [hstatus, ClientState.put]

/-- Claim C6, witness at a concrete client and response. -/
theorem cancelOrder_success_publishes_cancelled_witness :
    ((cancelOrder probeClient "binance" "BTC-USDT" "order42"
        (AwaitOutcome.response
          [("id", JVal.scalar (JScalar.s "1")),
           ("status", JVal.scalar (JScalar.s "success")),
           ("data", JVal.obj [("order_id", JScalar.s "order42")])])).1.published
      = probeClient.published ++
        [{ type := EventType.ORDER_UPDATE
           data := JVal.obj
             [("order_id", JScalar.s "order42"),
              ("status", JScalar.s "cancelled"),
              ("exchange", JScalar.s "binance"),
              ("market", JScalar.s "BTC-USDT")]
           source := some "hummingbot" }])
    ∧ (cancelOrder probeClient "binance" "BTC-USDT" "order42"
        (AwaitOutcome.response
          [("id", JVal.scalar (JScalar.s "1")),
           ("status", JVal.scalar (JScalar.s "success")),
           ("data", JVal.obj [("order_id", JScalar.s "order42")])])).2
        = Except.ok ((lookupKey
            [("id", JVal.scalar (JScalar.s "1")),
             ("status", JVal.scalar (JScalar.s "success")),
             ("data", JVal.obj [("order_id", JScalar.s "order42")])] "data").getD (JVal.obj [])) := by
  exact cancelOrder_success_publishes_cancelled probeClient "binance" "BTC-USDT" "order42"
    _ (by decide) (by decide)

/-- `_handle_event` on a message whose `type` is absent: every branch
misses and nothing is forwarded (hummingbot_client.py lines 358-359). -/
theorem handleEvent_no_type (st : ClientState) (msg : JObj)
    (h : lookupKey msg "type" = none) : handleEvent st msg = st := by
  simp [handleEvent, h]

/-- `_send_request` under a timeout: the id is assigned, the request was
written to the transport, `asyncio.TimeoutError` is converted into a
client exception, and the `finally` block removes the pending entry. -/
theorem sendRequest_timeout_eq (st : ClientState) (request : JObj)
    (hws : st.ws = true) :
    sendRequest st request AwaitOutcome.timeout =
      ({ st with
          messageId := (assignRequestId st.messageId request).1
          pendingRequests :=
            ((if (assignRequestId st.messageId request).2.2 ∈ st.pendingRequests
              then st.pendingRequests
              else st.pendingRequests ++ [(assignRequestId st.messageId request).2.2]).filter
              (fun x => decide (x ≠ (assignRequestId st.messageId request).2.2)))
          sent := st.sent ++ [(assignRequestId st.messageId request).2.1] },
        Except.error (ClientError.clientException "Request timed out")) := by
  simp [sendRequest, hws]

/-- Claim C3: a request that times out raises the timeout error to its
caller, its correlation entry is removed from the pending-request table
(`finally`, hummingbot_client.py lines 269-272), and a late response
bearing the timed-out id is routed by the receive loop to
`_handle_event` (no pending match, lines 290-297), where — carrying no
`type` — it is logged and dropped: no state change, no event published,
no error raised to any caller. -/
theorem requestTimeout_removes_entry_and_drops_late_response
    (st : ClientState) (request : JObj)
    (hws : st.ws = true) (hnoid : lookupKey request "id" = none) :
    ((sendRequest st request AwaitOutcome.timeout).2
      = Except.error (ClientError.clientException "Request timed out"))
    ∧ (JVal.scalar (JScalar.s (Nat.repr (st.messageId + 1)))
        ∉ (sendRequest st request AwaitOutcome.timeout).1.pendingRequests)
    ∧ ∀ (late : JObj),
        lookupKey late "id" = some (JVal.scalar (JScalar.s (Nat.repr (st.messageId + 1)))) →
        lookupKey late "type" = none →
        processMessage (sendRequest st request AwaitOutcome.timeout).1 late
          = ((sendRequest st request AwaitOutcome.timeout).1, ReceiveAction.handled) := by
  have hassign : assignRequestId st.messageId request
      = (st.messageId + 1,
          setKey request "id" (JVal.scalar (JScalar.s (Nat.repr (st.messageId + 1)))),
          JVal.scalar (JScalar.s (Nat.repr (st.messageId + 1)))) := by
    simp [assignRequestId, hnoid]
  have hpend : JVal.scalar (JScalar.s (Nat.repr (st.messageId + 1)))
      ∉ (sendRequest st request AwaitOutcome.timeout).1.pendingRequests := by
    rw [sendRequest_timeout_eq st request hws]
    rw [hassign]
    exact not_mem_filter_ne _ _
  refine ⟨?_, hpend, ?_⟩
  · rw [sendRequest_timeout_eq st request hws]
  · intro late hlid hltype
    rw [processMessage, hlid]
    simp only [if_neg hpend]
    rw [handleEvent_no_type _ _ hltype]

/-- Claim C3, witness: a concrete timed-out `get_ticker` request on a
connected client, followed by a late response for the assigned id. -/
theorem requestTimeout_witness :
    ((sendRequest probeClient
        [("type", JVal.scalar (JScalar.s "get_ticker")),
         ("exchange", JVal.scalar (JScalar.s "binance")),
         ("market", JVal.scalar (JScalar.s "BTC-USDT"))] AwaitOutcome.timeout).2
      = Except.error (ClientError.clientException "Request timed out"))
    ∧ (JVal.scalar (JScalar.s (Nat.repr (probeClient.messageId + 1)))
        ∉ (sendRequest probeClient
            [("type", JVal.scalar (JScalar.s "get_ticker")),
             ("exchange", JVal.scalar (JScalar.s "binance")),
             ("market", JVal.scalar (JScalar.s "BTC-USDT"))] AwaitOutcome.timeout).1.pendingRequests)
    ∧ processMessage (sendRequest probeClient
          [("type", JVal.scalar (JScalar.s "get_ticker")),
           ("exchange", JVal.scalar (JScalar.s "binance")),
           ("market", JVal.scalar (JScalar.s "BTC-USDT"))] AwaitOutcome.timeout).1
          [("id", JVal.scalar (JScalar.s (Nat.repr (probeClient.messageId + 1)))),
           ("status", JVal.scalar (JScalar.s "success"))]
        = ((sendRequest probeClient
            [("type", JVal.scalar (JScalar.s "get_ticker")),
             ("exchange", JVal.scalar (JScalar.s "binance")),
             ("market", JVal.scalar (JScalar.s "BTC-USDT"))] AwaitOutcome.timeout).1,
           ReceiveAction.handled) := by
  have h := requestTimeout_removes_entry_and_drops_late_response probeClient
    [("type", JVal.scalar (JScalar.s "get_ticker")),
     ("exchange", JVal.scalar (JScalar.s "binance")),
     ("market", JVal.scalar (JScalar.s "BTC-USDT"))] (by decide) (by decide)
  exact ⟨h.1, h.2.1, h.2.2 _ (by decide) (by decide)⟩

/-- Claim C7: classification of unsolicited push messages.  A message
with no id matching a pending request goes to `_handle_event`, where its
`type` is mapped `order_update`→ORDER_UPDATE, `trade`→TRADE_UPDATE,
`order_book_update`/`ticker_update`→MARKET_DATA, `error`→ERROR,
`info`→INFO, forwarding `data` (default `{}`) via `EventEngine.put`;
any other `type` is logged and not forwarded (hummingbot_client.py
lines 313-359). -/
theorem pushMessage_type_mapping (st : ClientState) (msg : JObj)
    (hid : ∀ idv, lookupKey msg "id" = some idv → idv ∉ st.pendingRequests) :
    (processMessage st msg = (handleEvent st msg, ReceiveAction.handled))
    ∧ (lookupKey msg "type" = some (JVal.scalar (JScalar.s "order_update")) →
        handleEvent st msg = st.put
          { type := EventType.ORDER_UPDATE
            data := (lookupKey msg "data").getD (JVal.obj [])
            source := some "hummingbot" })
    ∧ (lookupKey msg "type" = some (JVal.scalar (JScalar.s "trade")) →
        handleEvent st msg = st.put
          { type := EventType.TRADE_UPDATE
            data := (lookupKey msg "data").getD (JVal.obj [])
            source := some "hummingbot" })
    ∧ (lookupKey msg "type" = some (JVal.scalar (JScalar.s "order_book_update")) →
        handleEvent st msg = st.put
          { type := EventType.MARKET_DATA
            data := (lookupKey msg "data").getD (JVal.obj [])
            source := some "hummingbot" })
    ∧ (lookupKey msg "type" = some (JVal.scalar (JScalar.s "ticker_update")) →
        handleEvent st msg = st.put
          { type := EventType.MARKET_DATA
            data := (lookupKey msg "data").getD (JVal.obj [])
            source := some "hummingbot" })
    ∧ (lookupKey msg "type" = some (JVal.scalar (JScalar.s "error")) →
        handleEvent st msg = st.put
          { type := EventType.ERROR
            data := (lookupKey msg "data").getD (JVal.obj [])
            source := some "hummingbot" })
    ∧ (lookupKey msg "type" = some (JVal.scalar (JScalar.s "info")) →
        handleEvent st msg = st.put
          { type := EventType.INFO
            data := (lookupKey msg "data").getD (JVal.obj [])
            source := some "hummingbot" })
    ∧ (lookupKey msg "type" ≠ some (JVal.scalar (JScalar.s "order_update")) →
       lookupKey msg "type" ≠ some (JVal.scalar (JScalar.s "trade")) →
       lookupKey msg "type" ≠ some (JVal.scalar (JScalar.s "order_book_update")) →
       lookupKey msg "type" ≠ some (JVal.scalar (JScalar.s "ticker_update")) →
       lookupKey msg "type" ≠ some (JVal.scalar (JScalar.s "error")) →
       lookupKey msg "type" ≠ some (JVal.scalar (JScalar.s "info")) →
        handleEvent st msg = st) := by
  refine ⟨?_, ?_, ?_, ?_, ?_, ?_, ?_, ?_⟩
  · cases hmsg : lookupKey msg "id" with
    | none => simp [processMessage, hmsg]
    | some idv => simp [processMessage, hmsg, hid idv hmsg]
  · intro h; simp [handleEvent, h]
  · intro h; simp [handleEvent, h]
  · intro h; simp [handleEvent, h]
  · intro h; simp [handleEvent, h]
  · intro h; simp [handleEvent, h]
  · intro h; simp [handleEvent, h]
  · intro h1 h2 h3 h4 h5 h6; simp [handleEvent, h1, h2, h3, h4, h5, h6]

/-- Claim C7, witness: a concrete `trade` push message with an id no
longer pending is forwarded as a TRADE_UPDATE event. -/
theorem pushMessage_type_mapping_witness :
    (processMessage probeClient
        [("id", JVal.scalar (JScalar.s "99")),
         ("type", JVal.scalar (JScalar.s "trade")),
         ("data", JVal.obj [("price", JScalar.i 5)])]
      = (handleEvent probeClient
          [("id", JVal.scalar (JScalar.s "99")),
           ("type", JVal.scalar (JScalar.s "trade")),
           ("data", JVal.obj [("price", JScalar.i 5)])], ReceiveAction.handled))
    ∧ handleEvent probeClient
        [("id", JVal.scalar (JScalar.s "99")),
         ("type", JVal.scalar (JScalar.s "trade")),
         ("data", JVal.obj [("price", JScalar.i 5)])]
      = probeClient.put
          { type := EventType.TRADE_UPDATE
            data := (lookupKey
              [("id", JVal.scalar (JScalar.s "99")),
               ("type", JVal.scalar (JScalar.s "trade")),
               ("data", JVal.obj [("price", JScalar.i 5)])] "data").getD (JVal.obj [])
            source := some "hummingbot" } := by
  have h := pushMessage_type_mapping probeClient
    [("id", JVal.scalar (JScalar.s "99")),
     ("type", JVal.scalar (JScalar.s "trade")),
     ("data", JVal.obj [("price", JScalar.i 5)])]
    (fun idv _ => List.not_mem_nil idv)
  exact ⟨h.1, h.2.2.1 (by decide)⟩

/-- Claim C9: every domain operation checks
`response.get("status") != "success"`; a correlated response with no
`"status"` key at all makes that check true (`None != "success"`),
so the operation raises a `HummingbotClientException` and never returns
the response's data (hummingbot_client.py lines 407-409, 469-471,
536-538, 572-574, 605-607, 707-709, 740-742, 776-778). -/
theorem missing_status_treated_as_error
    (st : ClientState) (resp : JObj)
    (exchange market orderId amount p : String) (side : OrderSide)
    (orderType : OrderType) (depth lim : Int)
    (hws : st.ws = true) (hnostatus : lookupKey resp "status" = none) :
    ((createOrder st exchange market side orderType amount (some p)
        (AwaitOutcome.response resp)).2
      = Except.error (ClientError.clientException
          ("Failed to create order: " ++ respErrMsg resp "Unknown error")))
    ∧ ((cancelOrder st exchange market orderId (AwaitOutcome.response resp)).2
      = Except.error (ClientError.clientException
          ("Failed to cancel order: " ++ respErrMsg resp "Unknown error")))
    ∧ ((getOrderStatus st exchange market orderId (AwaitOutcome.response resp)).2
      = Except.error (ClientError.clientException
          ("Failed to get order status: " ++ respErrMsg resp "Unknown error")))
    ∧ ((getOrderBook st exchange market depth (AwaitOutcome.response resp)).2
      = Except.error (ClientError.clientException
          ("Failed to get order book: " ++ respErrMsg resp "Unknown error")))
    ∧ ((getTicker st exchange market (AwaitOutcome.response resp)).2
      = Except.error (ClientError.clientException
          ("Failed to get ticker: " ++ respErrMsg resp "Unknown error")))
    ∧ ((getBalances st exchange (AwaitOutcome.response resp)).2
      = Except.error (ClientError.clientException
          ("Failed to get balances: " ++ respErrMsg resp "Unknown error")))
    ∧ ((getOpenOrders st exchange market (AwaitOutcome.response resp)).2
      = Except.error (ClientError.clientException
          ("Failed to get open orders: " ++ respErrMsg resp "Unknown error")))
    ∧ ((getOrderHistory st exchange market lim (AwaitOutcome.response resp)).2
      = Except.error (ClientError.clientException
          ("Failed to get order history: " ++ respErrMsg resp "Unknown error"))) := by
  refine ⟨?_, ?_, ?_, ?_, ?_, ?_, ?_, ?_⟩ <;>
    simp [createOrder, cancelOrder, getOrderStatus, getOrderBook, getTicker, getBalances,
      getOpenOrders, getOrderHistory, checkedData, sendRequest_response_eq st hws, hnostatus]

/-- Claim C9, witness: a concrete status-less response to `create_order`
and to `get_ticker` on a connected client. -/
theorem missing_status_treated_as_error_witness :
    ((createOrder probeClient "binance" "BTC-USDT" OrderSide.BUY OrderType.LIMIT
        "1.0" (some "100.0")
        (AwaitOutcome.response [("message", JVal.scalar (JScalar.s "oops"))])).2
      = Except.error (ClientError.clientException
          ("Failed to create order: "
            ++ respErrMsg [("message", JVal.scalar (JScalar.s "oops"))] "Unknown error")))
    ∧ ((getTicker probeClient "binance" "BTC-USDT"
        (AwaitOutcome.response [("message", JVal.scalar (JScalar.s "oops"))])).2
      = Except.error (ClientError.clientException
          ("Failed to get ticker: "
            ++ respErrMsg [("message", JVal.scalar (JScalar.s "oops"))] "Unknown error"))) := by
  have h := missing_status_treated_as_error probeClient
    [("message", JVal.scalar (JScalar.s "oops"))]
    "binance" "BTC-USDT" "order42" "1.0" "100.0" OrderSide.BUY OrderType.LIMIT
    10 50 (by decide) (by decide)
  exact ⟨h.1, h.2.2.2.2.1⟩

/-- Claim C10: `create_order` with `order_type=market` never embeds a
`price` field — the guard at hummingbot_client.py line 401 requires a
limit order — so a caller-supplied price is silently ignored: the
request put on the wire has no `"price"` key, and the call is not
rejected with the limit-order `ValueError`. -/
theorem createOrder_market_ignores_price
    (st : ClientState) (exchange market amount p : String) (side : OrderSide)
    (resp : JObj) (hws : st.ws = true) :
    (lookupKey (createOrderRequest exchange market side OrderType.MARKET amount (some p))
        "price" = none)
    ∧ ((createOrder st exchange market side OrderType.MARKET amount (some p)
          (AwaitOutcome.response resp)).1.sent
        = st.sent ++ [(assignRequestId st.messageId
            (createOrderRequest exchange market side OrderType.MARKET amount (some p))).2.1])
    ∧ (lookupKey (assignRequestId st.messageId
          (createOrderRequest exchange market side OrderType.MARKET amount (some p))).2.1
        "price" = none)
    ∧ ∀ m : String,
        (createOrder st exchange market side OrderType.MARKET amount (some p)
          (AwaitOutcome.response resp)).2
          ≠ Except.error (ClientError.valueError m) := by
  have hbase : lookupKey
      (createOrderRequest exchange market side OrderType.MARKET amount (some p))
      "price" = none := by
    simp [createOrderRequest, lookupKey, List.find?]
  have hnoid : lookupKey
      (createOrderRequest exchange market side OrderType.MARKET amount (some p))
      "id" = none := by
    simp [createOrderRequest, lookupKey, List.find?]
  refine ⟨hbase, ?_, ?_, ?_⟩
  · rw [createOrder]
    simp only [sendRequest_response_eq st hws]
    split
    · simp at *
    · split <;> simp [ClientState.put]
  · rw [assignRequestId, hnoid]
    rw [lookupKey_setKey_ne _ "id" "price" _ (by decide)]
    exact hbase
  · intro m
    rw [createOrder]
    simp only [sendRequest_response_eq st hws]
    split
    · simp at *
    · split <;> simp

/-- Claim C10, witness at concrete arguments. -/
theorem createOrder_market_ignores_price_witness :
    (lookupKey (createOrderRequest "binance" "BTC-USDT" OrderSide.BUY OrderType.MARKET
        "1.0" (some "100.0")) "price" = none)
    ∧ (lookupKey (assignRequestId probeClient.messageId
          (createOrderRequest "binance" "BTC-USDT" OrderSide.BUY OrderType.MARKET
            "1.0" (some "100.0"))).2.1 "price" = none)
    ∧ ((createOrder probeClient "binance" "BTC-USDT" OrderSide.BUY OrderType.MARKET
          "1.0" (some "100.0")
          (AwaitOutcome.response [("status", JVal.scalar (JScalar.s "success"))])).2
        ≠ Except.error (ClientError.valueError "Price is required for limit orders")) := by
  have h := createOrder_market_ignores_price probeClient "binance" "BTC-USDT"
    "1.0" "100.0" OrderSide.BUY
    [("status", JVal.scalar (JScalar.s "success"))] (by decide)
  exact ⟨h.1, h.2.2.1, h.2.2.2 "Price is required for limit orders"⟩

/-! ## Decimal stringification is injective (for the request-id claim) -/

theorem toDigitsCore_eq_digits (f : Nat) :
    ∀ (n : Nat) (acc : List Char), 0 < n → n ≤ f →
      Nat.toDigitsCore 10 f n acc
        = ((Nat.digits 10 n).map Nat.digitChar).reverse ++ acc := by
  induction f with
  | zero => intro n acc hn hf; omega
  | succ f ih =>
      intro n acc hn hf
      rw [Nat.toDigitsCore]
      by_cases h10 : n / 10 = 0
      · simp only [h10, if_true]
        rw [Nat.digits_def' (by norm_num : (1:Nat) < 10) hn, h10, Nat.digits_zero]
        simp
      · simp only [h10, if_false]
        have hpos : 0 < n / 10 := Nat.pos_of_ne_zero h10
        have hlt : n / 10 < n := Nat.div_lt_self hn (by norm_num)
        rw [ih (n / 10) _ hpos (by omega)]
        rw [Nat.digits_def' (by norm_num : (1:Nat) < 10) hn]
        simp [List.append_assoc]

theorem toDigits10_eq (n : Nat) :
    Nat.toDigits 10 n
      = if n = 0 then ['0'] else ((Nat.digits 10 n).map Nat.digitChar).reverse := by
  by_cases h : n = 0
  · subst h; rfl
  · rw [if_neg h, Nat.toDigits,
      toDigitsCore_eq_digits (n + 1) n [] (Nat.pos_of_ne_zero h) (by omega)]
    simp

theorem digitChar_inj_lt (a b : Nat) (ha : a < 10) (hb : b < 10)
    (h : Nat.digitChar a = Nat.digitChar b) : a = b := by
  interval_cases a <;> interval_cases b <;> first | rfl | (revert h; decide)

theorem digits_map_digitChar_inj :
    ∀ (l1 l2 : List Nat), (∀ d ∈ l1, d < 10) → (∀ d ∈ l2, d < 10) →
      l1.map Nat.digitChar = l2.map Nat.digitChar → l1 = l2 := by
  intro l1
  induction l1 with
  | nil => intro l2 _ _ h; cases l2 with
      | nil => rfl
      | cons b t2 => simp at h
  | cons a t ih =>
      intro l2 h1 h2 h
      cases l2 with
      | nil => simp at h
      | cons b t2 =>
          simp only [List.map_cons, List.cons.injEq] at h
          have hab := digitChar_inj_lt a b (h1 a (by simp)) (h2 b (by simp)) h.1
          subst hab
          rw [ih t2 (fun d hd => h1 d (by simp [hd])) (fun d hd => h2 d (by simp [hd])) h.2]

theorem natRepr_injective : Function.Injective Nat.repr := by
  intro m n h
  have hd : Nat.toDigits 10 m = Nat.toDigits 10 n := congrArg String.data h
  rw [toDigits10_eq, toDigits10_eq] at hd
  by_cases hm : m = 0 <;> by_cases hn : n = 0
  · omega
  · rw [if_pos hm, if_neg hn] at hd
    exfalso
    have hmap : (Nat.digits 10 n).map Nat.digitChar = ['0'] := by
      have := congrArg List.reverse hd
      simpa using this.symm
    have hdig : Nat.digits 10 n = [0] := by
      cases hdg : Nat.digits 10 n with
      | nil => rw [hdg] at hmap; simp at hmap
      | cons d ds =>
          rw [hdg] at hmap
          simp only [List.map_cons, List.cons.injEq] at hmap
          have hds : ds = [] := by
            have := hmap.2
            cases ds with
            | nil => rfl
            | cons x xs => simp at this
          have hd10 : d < 10 := Nat.digits_lt_base (by norm_num) (by rw [hdg]; simp)
          have hd0 : d = 0 := digitChar_inj_lt d 0 hd10 (by norm_num) (by rw [hmap.1]; rfl)
          rw [hds, hd0]
    have := Nat.ofDigits_digits 10 n
    rw [hdig] at this
    simp [Nat.ofDigits] at this
    omega
  · rw [if_neg hm, if_pos hn] at hd
    exfalso
    have hmap : (Nat.digits 10 m).map Nat.digitChar = ['0'] := by
      have := congrArg List.reverse hd
      simpa using this
    have hdig : Nat.digits 10 m = [0] := by
      cases hdg : Nat.digits 10 m with
      | nil => rw [hdg] at hmap; simp at hmap
      | cons d ds =>
          rw [hdg] at hmap
          simp only [List.map_cons, List.cons.injEq] at hmap
          have hds : ds = [] := by
            have := hmap.2
            cases ds with
            | nil => rfl
            | cons x xs => simp at this
          have hd10 : d < 10 := Nat.digits_lt_base (by norm_num) (by rw [hdg]; simp)
          have hd0 : d = 0 := digitChar_inj_lt d 0 hd10 (by norm_num) (by rw [hmap.1]; rfl)
          rw [hds, hd0]
    have := Nat.ofDigits_digits 10 m
    rw [hdig] at this
    simp [Nat.ofDigits] at this
    omega
  · rw [if_neg hm, if_neg hn] at hd
    have hrev := List.reverse_injective hd
    have hm10 : ∀ d ∈ Nat.digits 10 m, d < 10 :=
      fun d hdm => Nat.digits_lt_base (by norm_num) hdm
    have hn10 : ∀ d ∈ Nat.digits 10 n, d < 10 :=
      fun d hdn => Nat.digits_lt_base (by norm_num) hdn
    have hdig := digits_map_digitChar_inj _ _ hm10 hn10 hrev
    have h1 := Nat.ofDigits_digits 10 m
    have h2 := Nat.ofDigits_digits 10 n
    rw [hdig] at h1
    rw [h2] at h1
    omega

/-- Auxiliary for claim C8: over a run of requests none of which embeds
an id, the ids handed out are the stringified values `mid+1, mid+2, ...`
of the counter, and the counter advances by the number of requests. -/
theorem assignSeq_fresh (rs : List JObj) :
    ∀ (mid : Nat), (∀ r ∈ rs, lookupKey r "id" = none) →
      ((assignSeq mid rs).2
        = (List.range rs.length).map
            (fun i => JVal.scalar (JScalar.s (Nat.repr (mid + i + 1)))))
      ∧ (assignSeq mid rs).1 = mid + rs.length := by
  induction rs with
  | nil => intro mid _; simp [assignSeq]
  | cons r rs ih =>
      intro mid hnoid
      have hr : lookupKey r "id" = none := hnoid r (by simp)
      have hrest : ∀ r2 ∈ rs, lookupKey r2 "id" = none :=
        fun r2 h2 => hnoid r2 (by simp [h2])
      obtain ⟨ih1, ih2⟩ := ih (mid + 1) hrest
      constructor
      · simp only [assignSeq, assignRequestId, hr]
        rw [ih1, List.length_cons, List.range_succ_eq_map]
        simp only [List.map_cons, List.map_map]
        refine congrArg₂ _ rfl ?_
        apply List.map_congr_left
        intro i _
        simp only [Function.comp]
        rw [show mid + 1 + i + 1 = mid + (i + 1) + 1 from by omega]
      · simp only [assignSeq, assignRequestId, hr]
        rw [ih2, List.length_cons]
        omega

/-- Claim C8: request-ids assigned by one client to requests carrying no
caller-embedded id are the stringified values of the strictly increasing
message counter (hummingbot_client.py lines 240-242), so no id is ever
assigned twice; and a request that already carries an id keeps it, with
the counter left unchanged. -/
theorem requestIds_monotonic_and_unique (mid : Nat) (rs : List JObj)
    (hnoid : ∀ r ∈ rs, lookupKey r "id" = none) :
    ((assignSeq mid rs).2
      = (List.range rs.length).map
          (fun i => JVal.scalar (JScalar.s (Nat.repr (mid + i + 1)))))
    ∧ ((assignSeq mid rs).1 = mid + rs.length)
    ∧ (assignSeq mid rs).2.Nodup
    ∧ ∀ (mid2 : Nat) (r : JObj) (idv : JVal),
        lookupKey r "id" = some idv → assignRequestId mid2 r = (mid2, r, idv) := by
  obtain ⟨h1, h2⟩ := assignSeq_fresh rs mid hnoid
  have hinj : Function.Injective
      (fun i => JVal.scalar (JScalar.s (Nat.repr (mid + i + 1)))) := by
    intro i j hij
    simp only [JVal.scalar.injEq, JScalar.s.injEq] at hij
    have := natRepr_injective hij
    omega
  refine ⟨h1, h2, ?_, ?_⟩
  · rw [h1]
    exact (List.nodup_range _).map hinj
  · intro mid2 r idv h
    simp [assignRequestId, h]

/-- Claim C8, witness: two id-less requests get ids "1" and "2" (fresh
client, counter 0), distinct; a request embedding id "myid" keeps it and
leaves the counter at 5. -/
theorem requestIds_monotonic_and_unique_witness :
    ((assignSeq 0
        [[("type", JVal.scalar (JScalar.s "get_ticker"))],
         [("type", JVal.scalar (JScalar.s "get_balances"))]]).2
      = (List.range 2).map
          (fun i => JVal.scalar (JScalar.s (Nat.repr (0 + i + 1)))))
    ∧ ((assignSeq 0
        [[("type", JVal.scalar (JScalar.s "get_ticker"))],
         [("type", JVal.scalar (JScalar.s "get_balances"))]]).1 = 0 + 2)
    ∧ (assignSeq 0
        [[("type", JVal.scalar (JScalar.s "get_ticker"))],
         [("type", JVal.scalar (JScalar.s "get_balances"))]]).2.Nodup
    ∧ assignRequestId 5 [("id", JVal.scalar (JScalar.s "myid"))]
        = (5, [("id", JVal.scalar (JScalar.s "myid"))], JVal.scalar (JScalar.s "myid")) := by
  have h := requestIds_monotonic_and_unique 0
    [[("type", JVal.scalar (JScalar.s "get_ticker"))],
     [("type", JVal.scalar (JScalar.s "get_balances"))]]
    (by decide)
  exact ⟨h.1, h.2.1, h.2.2.1,
    h.2.2.2 5 [("id", JVal.scalar (JScalar.s "myid"))] (JVal.scalar (JScalar.s "myid")) (by decide)⟩

end LiquidEnergy
